import Mathlib

set_option maxRecDepth 100000

/- Verification development for check_update.py: a single-run batch job that
   resolves app metadata from a region-partitioned storefront, diffs observed
   versions against a persisted cache, and dispatches one consolidated push
   notification. Pure fragments of the script are embedded as Lean functions;
   the external collaborators (HTTP client, datetime library, file system)
   are passed in as explicit capability parameters, so every run of the
   embedded orchestrator is a deterministic function of those inputs. -/

/- Helper mirroring a Python single-character str.replace: every occurrence of
   the character is substituted (the script only calls replace("Z", "+00:00")). -/
def replaceChar (s : String) (c : Char) (replacement : String) : String :=
  String.mk (s.data.flatMap (fun ch => if ch = c then replacement.data else [ch]))

/- Helper mirroring Python str.lower on ASCII configuration values. -/
def pyLower (s : String) : String := String.mk (s.data.map Char.toLower)

/- Helper mirroring Python str.upper on ASCII region codes. -/
def pyUpper (s : String) : String := String.mk (s.data.map Char.toUpper)

/- Decidable substring test, used to state facts about composed message text. -/
def containsSub (s pat : String) : Bool :=
  (List.range (s.length + 1)).any (fun i => (s.drop i).take pat.length == pat)

/- REGIONS, the built-in ordered region list (source lines 12-15). -/
def REGIONS : List String :=
  ["cn", "us", "hk", "tw", "jp", "kr", "gb", "sg", "au",
   "de", "fr", "ca", "it", "es", "ru", "br", "mx", "in", "th", "vn"]

/- REGION_NAMES, the localization table (source lines 17-23). -/
def REGION_NAMES : List (String × String) :=
  [("cn", "中国"), ("us", "美国"), ("hk", "香港"), ("tw", "台湾"), ("jp", "日本"),
   ("kr", "韩国"), ("gb", "英国"), ("sg", "新加坡"), ("au", "澳大利亚"),
   ("de", "德国"), ("fr", "法国"), ("ca", "加拿大"), ("it", "意大利"),
   ("es", "西班牙"), ("ru", "俄罗斯"), ("br", "巴西"), ("mx", "墨西哥"),
   ("in", "印度"), ("th", "泰国"), ("vn", "越南")]

/- REGION_NAMES.get(region_code, region_code.upper()) from source line 222. -/
def regionName (code : String) : String :=
  match REGION_NAMES.lookup code with
  | some n => n
  | none => pyUpper code

/- Model of a JSON value as produced by json.load. -/
inductive PyJson where
  | null
  | bool (b : Bool)
  | num (n : Int)
  | str (s : String)
  | arr (elems : List PyJson)
  | obj (fields : List (String × PyJson))

def PyJson.isObj : PyJson → Bool
  | .obj _ => true
  | _ => false

/- State of the backing cache file as seen by load_version_cache: the file may
   be absent, present but raising inside open/json.load, or parsed to a value. -/
inductive CacheFileState where
  | missing
  | unreadable
  | parsed (data : PyJson)

/- load_version_cache (source lines 49-68). The result type is Option because
   the Python function can fall off the end of the function body: when the
   parsed top-level value is not a dict, the isinstance block is skipped and
   the lines that would reset the cache to {} sit after the return statement
   inside that block, so they are unreachable; the function then implicitly
   returns None, modelled here as Option.none. The take-3 condition models the
   preview loop that calls info.get on the first three values: a non-dict
   value raises AttributeError there, which the except clause turns into {}. -/
def load_version_cache (fs : CacheFileState) : Option (List (String × PyJson)) :=
  match fs with
  | .missing => some []
  | .unreadable => some []
  | .parsed data =>
    match data with
    | .obj fields =>
      if (fields.take 3).all (fun kv => kv.2.isObj) then some fields else some []
    | _ => none

/- First element of the iTunes lookup results array, with the fields the
   script reads (source lines 216-223). -/
structure ITunesRecord where
  trackName : Option String
  version : Option String
  releaseNotes : Option String
  trackViewUrl : Option String
  currentVersionReleaseDate : Option String
  artworkUrl100 : Option String
deriving DecidableEq

/- Outcome of one requests.get against the lookup endpoint: err covers any
   exception raised inside the per-region try block (timeout, connection
   failure, malformed JSON on a 200 response); resp carries the HTTP status
   and, for parsed bodies, resultCount and the results array. -/
inductive LookupOutcome where
  | err
  | resp (status : Nat) (resultCount : Nat) (results : List ITunesRecord)
deriving DecidableEq

/- The record returned by the resolver: the first result enriched with the
   detected_region key the script writes into it (source line 101). -/
structure AppInfo where
  raw : ITunesRecord
  detected_region : String
deriving DecidableEq

/- Region loop body of get_app_info_with_region (source lines 87-106), over an
   explicit list of regions. Besides the Python return value it also returns
   the ghost list of regions for which a lookup request was issued, in order.
   A non-200 status, a zero resultCount, a missing first result element, and
   an exception are all treated as a miss for that region and the loop
   continues; the first accepted region returns immediately. -/
def lookupRegions (lookup : String → String → LookupOutcome) (app_id : String) :
    List String → Option AppInfo × List String
  | [] => (none, [])
  | region :: rest =>
    match lookup app_id region with
    | .err =>
      let r := lookupRegions lookup app_id rest
      (r.1, region :: r.2)
    | .resp status resultCount results =>
      if status = 200 then
        if resultCount > 0 then
          match results with
          | [] =>
            let r := lookupRegions lookup app_id rest
            (r.1, region :: r.2)
          | app :: _ => (some { raw := app, detected_region := region }, [region])
        else
          let r := lookupRegions lookup app_id rest
          (r.1, region :: r.2)
      else
        let r := lookupRegions lookup app_id rest
        (r.1, region :: r.2)

/- get_app_info_with_region (source lines 84-108): iterates REGIONS[:6]. -/
def get_app_info_with_region (lookup : String → String → LookupOutcome) (app_id : String) :
    Option AppInfo × List String :=
  lookupRegions lookup app_id (REGIONS.take 6)

/- Acceptance condition of the region loop, as a function of one outcome:
   some record exactly when the code would return from that iteration. -/
def regionHit : LookupOutcome → Option ITunesRecord
  | .err => none
  | .resp status resultCount results =>
    if status = 200 ∧ resultCount > 0 then results.head? else none

/- Capability interface of the Python datetime library as used by
   format_datetime: fromisoformat (none models ValueError), the +8 hour
   timedelta shift, and strftime with the fixed pattern the script uses. -/
structure PyDatetimeLib (DT : Type) where
  fromisoformat : String → Option DT
  addHours8 : DT → DT
  strftimeYmdHM : DT → String

/- format_datetime (source lines 110-119). -/
def format_datetime {DT : Type} (lib : PyDatetimeLib DT) (iso_datetime : String) : String :=
  if iso_datetime = "" then "未知"
  else
    match lib.fromisoformat (replaceChar iso_datetime 'Z' "+00:00") with
    | some dt => lib.strftimeYmdHM (lib.addHours8 dt)
    | none => iso_datetime.take 16

/- Environment configuration read by the getters (source lines 27-37); each
   field is the raw environment variable, none when unset. -/
structure EnvConfig where
  PUSH_METHOD : Option String
  BARK_KEY : Option String
  TELEGRAM_BOT_TOKEN : Option String
  TELEGRAM_CHAT_ID : Option String
deriving DecidableEq

def get_push_method (cfg : EnvConfig) : String := pyLower (cfg.PUSH_METHOD.getD "bark")

def get_bark_key (cfg : EnvConfig) : String := cfg.BARK_KEY.getD ""

/- The two fields of get_telegram_config, split into one getter each. -/
def get_telegram_bot_token (cfg : EnvConfig) : String := cfg.TELEGRAM_BOT_TOKEN.getD ""

def get_telegram_chat_id (cfg : EnvConfig) : String := cfg.TELEGRAM_CHAT_ID.getD ""

/- A push request issued to a backend. The bark constructor carries the
   optional url/icon form fields (omitted for falsy arguments); the telegram
   constructor carries the rendered message text (parse_mode and
   disable_web_page_preview are fixed constants in the script). -/
inductive PushRequest where
  | bark (device_key title body : String) (url icon : Option String)
  | telegram (bot_token chat_id text : String)
deriving DecidableEq

/- send_bark_notification (source lines 121-138); net is the transport
   capability, returning delivery success as the script computes it. -/
def send_bark_notification (net : PushRequest → Bool) (bark_key title content url icon_url : String) :
    Bool × List PushRequest :=
  let req := PushRequest.bark bark_key title content
    (if url = "" then none else some url)
    (if icon_url = "" then none else some icon_url)
  (net req, [req])

/- send_telegram_notification (source lines 140-157): one message whose text
   is the bold title, a blank line, then the content. No link parameter. -/
def send_telegram_notification (net : PushRequest → Bool) (bot_token chat_id title content : String) :
    Bool × List PushRequest :=
  let message := "*" ++ title ++ "*\n\n" ++ content
  let req := PushRequest.telegram bot_token chat_id message
  (net req, [req])

/- send_notification (source lines 159-175): returns the success flag and the
   ghost list of requests actually issued. -/
def send_notification (cfg : EnvConfig) (net : PushRequest → Bool) (title content url icon_url : String) :
    Bool × List PushRequest :=
  let method := get_push_method cfg
  if method = "bark" then
    let key := get_bark_key cfg
    if key = "" then (false, [])
    else send_bark_notification net key title content url icon_url
  else if method = "telegram" then
    let bot_token := get_telegram_bot_token cfg
    let chat_id := get_telegram_chat_id cfg
    if bot_token = "" ∨ chat_id = "" then (false, [])
    else send_telegram_notification net bot_token chat_id title content
  else (false, [])

/- The app_data dictionary built per identifier in check_updates
   (source lines 228-238). -/
structure AppData where
  id : String
  name : String
  version : String
  region : String
  icon : String
  old_version : String
  notes : String
  release : String
  url : String
deriving DecidableEq

/- build_app_detail (source lines 177-187). -/
def build_app_detail (app_data : AppData) (show_old_version : Bool) : String :=
  let old_ver := if show_old_version = true ∧ app_data.old_version ≠ "" then
    "（" ++ app_data.old_version ++ "→" else ""
  let notes0 := app_data.notes
  let notes := if notes0.length > 150 then notes0.take 147 ++ "..." else notes0
  "📱 " ++ app_data.name ++ old_ver ++ app_data.version ++ " 📱\n地区: " ++ app_data.region ++
    " | 更新时间: " ++ app_data.release ++ "\n━━━━━━━━━━━━━━━\n" ++ notes

/- The per-identifier cache record written by check_updates
   (source lines 249-255). -/
structure CacheEntry where
  version : String
  app_name : String
  region : String
  icon : String
  updated_at : String
deriving DecidableEq

/- Association-list read, modelling dict lookup. -/
def getEntry : List (String × CacheEntry) → String → Option CacheEntry
  | [], _ => none
  | (k, v) :: rest, key => if k = key then some v else getEntry rest key

/- Association-list write, modelling dict item assignment (replace in place,
   append when the key is new). -/
def setEntry : List (String × CacheEntry) → String → CacheEntry → List (String × CacheEntry)
  | [], key, v => [(key, v)]
  | (k, v0) :: rest, key, v =>
    if k = key then (k, v) :: rest else (k, v0) :: setEntry rest key v

/- cache.get(app_id, {}).get("version", "") from source line 226: an absent
   entry reads as the empty string. -/
def getCachedVersion (cache : List (String × CacheEntry)) (app_id : String) : String :=
  match getEntry cache app_id with
  | some entry => entry.version
  | none => ""

/- The CacheEntry written for a resolved record (source lines 249-255);
   now stands for datetime.now().isoformat(). -/
def cacheEntryOf (now : String) (info : AppInfo) : CacheEntry :=
  { version := info.raw.version.getD "0.0",
    app_name := info.raw.trackName.getD "Unknown App",
    region := info.detected_region,
    icon := info.raw.artworkUrl100.getD "",
    updated_at := now }

/- The app_data value built for a resolved record (source lines 216-238);
   the region field holds the localized region name, release the formatted
   release time. -/
def appDataOf {DT : Type} (lib : PyDatetimeLib DT) (old_version : String) (app_id : String)
    (info : AppInfo) : AppData :=
  { id := app_id,
    name := info.raw.trackName.getD "Unknown App",
    version := info.raw.version.getD "0.0",
    region := regionName info.detected_region,
    icon := info.raw.artworkUrl100.getD "",
    old_version := old_version,
    notes := info.raw.releaseNotes.getD "暂无更新说明",
    release := format_datetime lib (info.raw.currentVersionReleaseDate.getD ""),
    url := info.raw.trackViewUrl.getD "" }

/- Mutable state of the per-identifier loop in check_updates: the working
   cache mapping and the two accumulator lists, plus a ghost trace of the
   cache writes performed so far, in order. -/
structure LoopState where
  cache : List (String × CacheEntry)
  all_current_apps : List AppData
  updated_apps : List AppData
  writes : List (String × CacheEntry)
deriving DecidableEq

/- One iteration of the identifier loop in check_updates (source lines
   208-257): resolve, skip on failure, otherwise classify against the current
   working cache and, on the first-run or changed-version branch, append to
   the matching accumulator and overwrite the cache entry. -/
def processApp {DT : Type} (lib : PyDatetimeLib DT) (lookup : String → String → LookupOutcome)
    (now : String) (is_first_run : Bool) (st : LoopState) (app_id : String) : LoopState :=
  match (get_app_info_with_region lookup app_id).1 with
  | none => st
  | some info =>
    let version := info.raw.version.getD "0.0"
    let old_version := getCachedVersion st.cache app_id
    let app_data := appDataOf lib old_version app_id info
    if is_first_run = true ∨ old_version ≠ version then
      let entry := cacheEntryOf now info
      if is_first_run = true then
        { cache := setEntry st.cache app_id entry,
          all_current_apps := st.all_current_apps ++ [app_data],
          updated_apps := st.updated_apps,
          writes := st.writes ++ [(app_id, entry)] }
      else
        { cache := setEntry st.cache app_id entry,
          all_current_apps := st.all_current_apps,
          updated_apps := st.updated_apps ++ [app_data],
          writes := st.writes ++ [(app_id, entry)] }
    else st

/- Run-scoped classification tags. -/
inductive Classification where
  | unseen
  | unchanged
  | updated (old_version : String)
deriving DecidableEq

/- The classification the loop body actually implements, extracted from the
   branch structure of source lines 240-257: a function of the run-level
   first-run flag, the defaulted cached version string and the fresh version. -/
def classify_code (is_first_run : Bool) (old_version version : String) : Classification :=
  if is_first_run = true ∨ old_version ≠ version then
    if is_first_run = true then Classification.unseen else Classification.updated old_version
  else Classification.unchanged

/- Classification as worded by the specification claim, for comparison with
   classify_code: absent cache entry gives Unseen, an equal stored version
   gives Unchanged, anything else gives Updated. -/
def classify_claim (old : Option String) (version : String) : Classification :=
  match old with
  | none => Classification.unseen
  | some o => if o = version then Classification.unchanged else Classification.updated o

/- Record of one send_notification call made by the orchestrator: the payload
   it was invoked with, the success flag it returned, and the ghost list of
   requests it issued. -/
structure NotifyCall where
  title : String
  content : String
  url : String
  icon : String
  ok : Bool
  requests : List PushRequest
deriving DecidableEq

/- The notify-and-persist tail of check_updates (source lines 262-291),
   returning the send_notification calls made and the cache snapshots passed
   to save_version_cache, each in order. The three patterns mirror the
   if / elif(len==1) / elif(multi) / else structure of the script. -/
def notify_and_save (cfg : EnvConfig) (net : PushRequest → Bool) (is_first_run : Bool)
    (all_current_apps updated_apps : List AppData) (cache : List (String × CacheEntry)) :
    List NotifyCall × List (List (String × CacheEntry)) :=
  match is_first_run, all_current_apps, updated_apps with
  | true, first_app :: rest, _ =>
    let apps := first_app :: rest
    let title := "📱 监控初始化完成 (" ++ toString apps.length ++ " 应用)"
    let details := String.intercalate "\n\n" (apps.map (fun a => build_app_detail a false))
    let content := "✅ 已成功添加以下应用到监控列表：\n\n" ++ details
    let sent := send_notification cfg net title content first_app.url first_app.icon
    ([{ title := title, content := content, url := first_app.url, icon := first_app.icon,
        ok := sent.1, requests := sent.2 }], [cache])
  | _, _, [app] =>
    let title := "🔥 " ++ app.name ++ " 有新版本啦！"
    let content := build_app_detail app true
    let sent := send_notification cfg net title content app.url app.icon
    ([{ title := title, content := content, url := app.url, icon := app.icon,
        ok := sent.1, requests := sent.2 }], [cache])
  | _, _, first_app :: next_app :: rest =>
    let apps := first_app :: next_app :: rest
    let title := "📱 App Store 更新 (" ++ toString apps.length ++ " 个)"
    let details := String.intercalate "\n\n" (apps.map (fun a => build_app_detail a true))
    let content := "发现以下应用有更新：\n\n" ++ details
    let sent := send_notification cfg net title content first_app.url first_app.icon
    ([{ title := title, content := content, url := first_app.url, icon := first_app.icon,
        ok := sent.1, requests := sent.2 }], [cache])
  | _, _, [] => ([], [])

/- Observable outcome of one check_updates run. -/
structure RunResult where
  is_first_run : Bool
  finalCache : List (String × CacheEntry)
  all_current_apps : List AppData
  updated_apps : List AppData
  notifications : List NotifyCall
  saves : List (List (String × CacheEntry))
deriving DecidableEq

/- Initial loop state for a loaded cache mapping. -/
def initLoopState (cache0 : List (String × CacheEntry)) : LoopState :=
  { cache := cache0, all_current_apps := [], updated_apps := [], writes := [] }

/- The identifier loop of check_updates as one fold over the configured
   identifier list, in order, starting from the loaded cache. -/
def loopRun {DT : Type} (lib : PyDatetimeLib DT) (lookup : String → String → LookupOutcome)
    (now : String) (is_first_run : Bool) (app_ids : List String)
    (cache0 : List (String × CacheEntry)) : LoopState :=
  app_ids.foldl (processApp lib lookup now is_first_run) (initLoopState cache0)

/- check_updates (source lines 189-291), over a loaded cache mapping. An
   empty identifier list returns immediately; otherwise is_first_run is the
   emptiness of the cache at load time, the loop folds processApp over the
   identifiers in order, and the notify/persist tail runs on the result. -/
def check_updates {DT : Type} (lib : PyDatetimeLib DT) (cfg : EnvConfig)
    (net : PushRequest → Bool) (lookup : String → String → LookupOutcome) (now : String)
    (app_ids : List String) (cache0 : List (String × CacheEntry)) : RunResult :=
  match app_ids with
  | [] =>
    { is_first_run := cache0.isEmpty, finalCache := cache0,
      all_current_apps := [], updated_apps := [], notifications := [], saves := [] }
  | _ :: _ =>
    let is_first_run := cache0.isEmpty
    let st := loopRun lib lookup now is_first_run app_ids cache0
    let ns := notify_and_save cfg net is_first_run st.all_current_apps st.updated_apps st.cache
    { is_first_run := is_first_run, finalCache := st.cache,
      all_current_apps := st.all_current_apps, updated_apps := st.updated_apps,
      notifications := ns.1, saves := ns.2 }

/- Most recent ghost write for an identifier. -/
def lastWrite (writes : List (String × CacheEntry)) (app_id : String) : Option CacheEntry :=
  getEntry writes.reverse app_id

/- Invariant tying the working cache to the loaded cache and the write trace:
   every key reads as its most recent write, or as its loaded entry when the
   pass never wrote it. -/
def cacheInv (cache0 : List (String × CacheEntry)) (st : LoopState) : Prop :=
  ∀ id, getEntry st.cache id =
    match lastWrite st.writes id with
    | some e => some e
    | none => getEntry cache0 id

/- Concrete capability instances and records used by the closed statements
   below (counterexamples and witnesses). -/

def lib10 : PyDatetimeLib Unit :=
  { fromisoformat := fun s => if s = "2024-01-02T03:04:05+00:00" then some () else none,
    addHours8 := fun d => d,
    strftimeYmdHM := fun _ => "2024-01-03 03:04" }

def libNone : PyDatetimeLib Unit :=
  { fromisoformat := fun _ => none, addHours8 := fun d => d, strftimeYmdHM := fun _ => "" }

def netTrue : PushRequest → Bool := fun _ => true

def cfgBark : EnvConfig :=
  { PUSH_METHOD := none, BARK_KEY := some "devkey",
    TELEGRAM_BOT_TOKEN := none, TELEGRAM_CHAT_ID := none }

def cfgNoKey : EnvConfig :=
  { PUSH_METHOD := none, BARK_KEY := none,
    TELEGRAM_BOT_TOKEN := none, TELEGRAM_CHAT_ID := none }

def cfgTelegram : EnvConfig :=
  { PUSH_METHOD := some "telegram", BARK_KEY := none,
    TELEGRAM_BOT_TOKEN := some "tok", TELEGRAM_CHAT_ID := some "chat" }

def recA : ITunesRecord :=
  { trackName := some "AppA", version := some "2.0", releaseNotes := some "fix bugs",
    trackViewUrl := some "https://apps.example.com/a",
    currentVersionReleaseDate := none,
    artworkUrl100 := some "https://img.example.com/a.png" }

def entryB : CacheEntry :=
  { version := "1.0", app_name := "AppB", region := "us", icon := "",
    updated_at := "2024-01-01T00:00:00" }

def lookupA : String → String → LookupOutcome := fun app_id region =>
  if app_id = "A" ∧ region = "cn" then .resp 200 1 [recA] else .resp 200 0 []

def lookupHK : String → String → LookupOutcome := fun _ region =>
  if region = "cn" then .err
  else if region = "us" then .resp 200 0 []
  else if region = "hk" then .resp 200 1 [recA]
  else .resp 200 0 []

def lookupGB : String → String → LookupOutcome := fun _ region =>
  if region = "gb" then .resp 200 1 [recA] else .resp 200 0 []

def longNotes : String := String.mk (List.replicate 160 'x')

def appU1 : AppData :=
  { id := "1", name := "AppOne", version := "2.0", region := "美国", icon := "i1",
    old_version := "1.0", notes := longNotes, release := "2024-01-03 03:04", url := "u1" }

def appU2 : AppData :=
  { id := "2", name := "AppTwo", version := "3.0", region := "日本", icon := "i2",
    old_version := "2.5", notes := longNotes, release := "2024-01-03 04:04", url := "u2" }

/- Helper lemmas on the association-list cache. -/

theorem getEntry_setEntry_self (m : List (String × CacheEntry)) (k : String) (v : CacheEntry) :
    getEntry (setEntry m k v) k = some v := by
  induction m with
  | nil => simp [setEntry, getEntry]
  | cons head tail ih =>
    obtain ⟨k0, v0⟩ := head
    by_cases h : k0 = k
    · simp [setEntry, getEntry, h]
    · simp [setEntry, getEntry, h, ih]

theorem getEntry_setEntry_ne (m : List (String × CacheEntry)) (k k2 : String) (v : CacheEntry)
    (h : k ≠ k2) : getEntry (setEntry m k v) k2 = getEntry m k2 := by
  induction m with
  | nil => simp [setEntry, getEntry, h]
  | cons head tail ih =>
    obtain ⟨k0, v0⟩ := head
    by_cases h0 : k0 = k
    · subst h0
      simp [setEntry, getEntry, h]
    · simp [setEntry, getEntry, h0, ih]

/- Helper lemmas on the region loop. -/

theorem lookupRegions_cons (lookup : String → String → LookupOutcome) (app_id region : String)
    (rest : List String) :
    lookupRegions lookup app_id (region :: rest) =
      match regionHit (lookup app_id region) with
      | some a => (some { raw := a, detected_region := region }, [region])
      | none =>
        ((lookupRegions lookup app_id rest).1, region :: (lookupRegions lookup app_id rest).2) := by
  cases h : lookup app_id region with
  | err => simp [lookupRegions, regionHit, h]
  | resp status resultCount results =>
    by_cases hs : status = 200
    · by_cases hc : resultCount > 0
      · cases results with
        | nil => simp [lookupRegions, regionHit, h, hs, hc]
        | cons a t => simp [lookupRegions, regionHit, h, hs, hc]
      · simp [lookupRegions, regionHit, h, hs, hc]
    · simp [lookupRegions, regionHit, h, hs]

theorem lookupRegions_all_miss (lookup : String → String → LookupOutcome) (app_id : String)
    (L : List String) (h : ∀ r ∈ L, regionHit (lookup app_id r) = none) :
    lookupRegions lookup app_id L = (none, L) := by
  induction L with
  | nil => rfl
  | cons r rest ih =>
    have hr : regionHit (lookup app_id r) = none := h r (by simp)
    have hrest := ih (fun x hx => h x (by simp [hx]))
    rw [lookupRegions_cons, hr, hrest]

theorem lookupRegions_first_hit (lookup : String → String → LookupOutcome) (app_id r0 : String)
    (a : ITunesRecord) (pre post : List String)
    (h : ∀ r ∈ pre, regionHit (lookup app_id r) = none)
    (h0 : regionHit (lookup app_id r0) = some a) :
    lookupRegions lookup app_id (pre ++ r0 :: post) =
      (some { raw := a, detected_region := r0 }, pre ++ [r0]) := by
  induction pre with
  | nil =>
    simp only [List.nil_append]
    rw [lookupRegions_cons, h0]
  | cons r rest ih =>
    have hr : regionHit (lookup app_id r) = none := h r (by simp)
    have hrest := ih (fun x hx => h x (by simp [hx]))
    simp only [List.cons_append]
    rw [lookupRegions_cons, hr, hrest]

theorem lookupRegions_queried (lookup : String → String → LookupOutcome) (app_id : String)
    (L : List String) : ∃ k, k ≤ L.length ∧ (lookupRegions lookup app_id L).2 = L.take k := by
  induction L with
  | nil => exact ⟨0, by simp, rfl⟩
  | cons r rest ih =>
    cases h : regionHit (lookup app_id r) with
    | some a =>
      refine ⟨1, by simp, ?_⟩
      rw [lookupRegions_cons, h]
      simp
    | none =>
      obtain ⟨k, hk, hq⟩ := ih
      refine ⟨k + 1, by simpa using hk, ?_⟩
      rw [lookupRegions_cons, h]
      simp [hq]

/- Helper lemmas on the identifier-loop body. -/

theorem processApp_not_resolved {DT : Type} (lib : PyDatetimeLib DT)
    (lookup : String → String → LookupOutcome) (now : String) (first : Bool) (st : LoopState)
    (app_id : String) (h : (get_app_info_with_region lookup app_id).1 = none) :
    processApp lib lookup now first st app_id = st := by
  simp [processApp, h]

theorem processApp_first {DT : Type} (lib : PyDatetimeLib DT)
    (lookup : String → String → LookupOutcome) (now : String) (st : LoopState)
    (app_id : String) (info : AppInfo) (h : (get_app_info_with_region lookup app_id).1 = some info) :
    processApp lib lookup now true st app_id =
      { cache := setEntry st.cache app_id (cacheEntryOf now info),
        all_current_apps :=
          st.all_current_apps ++ [appDataOf lib (getCachedVersion st.cache app_id) app_id info],
        updated_apps := st.updated_apps,
        writes := st.writes ++ [(app_id, cacheEntryOf now info)] } := by
  simp [processApp, h]

theorem processApp_unchanged {DT : Type} (lib : PyDatetimeLib DT)
    (lookup : String → String → LookupOutcome) (now : String) (st : LoopState)
    (app_id : String) (info : AppInfo) (h : (get_app_info_with_region lookup app_id).1 = some info)
    (he : getCachedVersion st.cache app_id = info.raw.version.getD "0.0") :
    processApp lib lookup now false st app_id = st := by
  simp [processApp, h, he]

theorem processApp_updated {DT : Type} (lib : PyDatetimeLib DT)
    (lookup : String → String → LookupOutcome) (now : String) (st : LoopState)
    (app_id : String) (info : AppInfo) (h : (get_app_info_with_region lookup app_id).1 = some info)
    (hne : getCachedVersion st.cache app_id ≠ info.raw.version.getD "0.0") :
    processApp lib lookup now false st app_id =
      { cache := setEntry st.cache app_id (cacheEntryOf now info),
        all_current_apps := st.all_current_apps,
        updated_apps :=
          st.updated_apps ++ [appDataOf lib (getCachedVersion st.cache app_id) app_id info],
        writes := st.writes ++ [(app_id, cacheEntryOf now info)] } := by
  simp [processApp, h, hne]

theorem foldl_first_all_current {DT : Type} (lib : PyDatetimeLib DT)
    (lookup : String → String → LookupOutcome) (now : String) (ids : List String) :
    ∀ st : LoopState,
      ((ids.foldl (processApp lib lookup now true) st).all_current_apps).length =
        st.all_current_apps.length +
          ids.countP (fun id => ((get_app_info_with_region lookup id).1).isSome) := by
  induction ids with
  | nil => intro st; simp
  | cons id rest ih =>
    intro st
    rw [List.foldl_cons, ih]
    cases h : (get_app_info_with_region lookup id).1 with
    | none =>
      rw [processApp_not_resolved lib lookup now true st id h]
      simp [List.countP_cons, h]
    | some info =>
      rw [processApp_first lib lookup now st id info h]
      simp [List.countP_cons, h]
      omega

/- Helper lemmas on the notify/persist tail. -/

theorem notify_and_save_shape (cfg : EnvConfig) (net : PushRequest → Bool) (f : Bool)
    (a u : List AppData) (c : List (String × CacheEntry)) :
    (notify_and_save cfg net f a u c = ([], []) ∧ u = []) ∨
      (∃ call, notify_and_save cfg net f a u c = ([call], [c])) := by
  cases f <;> rcases a with _ | ⟨x, xs⟩ <;> rcases u with _ | ⟨y, _ | ⟨z, zs⟩⟩ <;>
    first
      | (left; exact ⟨rfl, rfl⟩)
      | (right; exact ⟨_, rfl⟩)

theorem notify_and_save_saves_indep (cfg1 cfg2 : EnvConfig) (net1 net2 : PushRequest → Bool)
    (f : Bool) (a u : List AppData) (c : List (String × CacheEntry)) :
    (notify_and_save cfg1 net1 f a u c).2 = (notify_and_save cfg2 net2 f a u c).2 := by
  cases f <;> rcases a with _ | ⟨x, xs⟩ <;> rcases u with _ | ⟨y, _ | ⟨z, zs⟩⟩ <;> rfl

/- Helper lemmas on the write trace. -/

theorem lastWrite_append (ws : List (String × CacheEntry)) (app_id : String) (e : CacheEntry)
    (id : String) :
    lastWrite (ws ++ [(app_id, e)]) id = if app_id = id then some e else lastWrite ws id := by
  unfold lastWrite
  rw [List.reverse_append]
  simp [getEntry]

theorem cacheInv_setWrite (c0 : List (String × CacheEntry)) (st : LoopState) (app_id : String)
    (e : CacheEntry) (acc upd : List AppData) (h : cacheInv c0 st) :
    cacheInv c0
      { cache := setEntry st.cache app_id e, all_current_apps := acc, updated_apps := upd,
        writes := st.writes ++ [(app_id, e)] } := by
  intro id
  show getEntry (setEntry st.cache app_id e) id =
    match lastWrite (st.writes ++ [(app_id, e)]) id with
    | some e2 => some e2
    | none => getEntry c0 id
  rw [lastWrite_append]
  by_cases hid : app_id = id
  · subst hid
    simp [getEntry_setEntry_self]
  · rw [getEntry_setEntry_ne st.cache app_id id e hid]
    simp only [if_neg hid]
    exact h id

theorem cacheInv_processApp {DT : Type} (lib : PyDatetimeLib DT)
    (lookup : String → String → LookupOutcome) (now : String) (first : Bool)
    (c0 : List (String × CacheEntry)) (st : LoopState) (app_id : String)
    (h : cacheInv c0 st) : cacheInv c0 (processApp lib lookup now first st app_id) := by
  cases hres : (get_app_info_with_region lookup app_id).1 with
  | none =>
    rw [processApp_not_resolved lib lookup now first st app_id hres]
    exact h
  | some info =>
    cases first with
    | true =>
      rw [processApp_first lib lookup now st app_id info hres]
      exact cacheInv_setWrite c0 st app_id (cacheEntryOf now info) _ _ h
    | false =>
      by_cases he : getCachedVersion st.cache app_id = info.raw.version.getD "0.0"
      · rw [processApp_unchanged lib lookup now st app_id info hres he]
        exact h
      · rw [processApp_updated lib lookup now st app_id info hres he]
        exact cacheInv_setWrite c0 st app_id (cacheEntryOf now info) _ _ h

theorem cacheInv_foldl {DT : Type} (lib : PyDatetimeLib DT)
    (lookup : String → String → LookupOutcome) (now : String) (first : Bool)
    (c0 : List (String × CacheEntry)) (ids : List String) :
    ∀ st : LoopState, cacheInv c0 st →
      cacheInv c0 (ids.foldl (processApp lib lookup now first) st) := by
  induction ids with
  | nil => intro st h; exact h
  | cons id rest ih =>
    intro st h
    rw [List.foldl_cons]
    exact ih _ (cacheInv_processApp lib lookup now first c0 st id h)

theorem cacheInv_init (c0 : List (String × CacheEntry)) : cacheInv c0 (initLoopState c0) := by
  intro id
  rfl

/- Projection lemmas for a run with at least one identifier. -/

theorem check_updates_cons_saves {DT : Type} (lib : PyDatetimeLib DT) (cfg : EnvConfig)
    (net : PushRequest → Bool) (lookup : String → String → LookupOutcome) (now : String)
    (i : String) (rest : List String) (cache0 : List (String × CacheEntry)) :
    (check_updates lib cfg net lookup now (i :: rest) cache0).saves =
      (notify_and_save cfg net cache0.isEmpty
        (loopRun lib lookup now cache0.isEmpty (i :: rest) cache0).all_current_apps
        (loopRun lib lookup now cache0.isEmpty (i :: rest) cache0).updated_apps
        (loopRun lib lookup now cache0.isEmpty (i :: rest) cache0).cache).2 := rfl

theorem check_updates_cons_notifications {DT : Type} (lib : PyDatetimeLib DT) (cfg : EnvConfig)
    (net : PushRequest → Bool) (lookup : String → String → LookupOutcome) (now : String)
    (i : String) (rest : List String) (cache0 : List (String × CacheEntry)) :
    (check_updates lib cfg net lookup now (i :: rest) cache0).notifications =
      (notify_and_save cfg net cache0.isEmpty
        (loopRun lib lookup now cache0.isEmpty (i :: rest) cache0).all_current_apps
        (loopRun lib lookup now cache0.isEmpty (i :: rest) cache0).updated_apps
        (loopRun lib lookup now cache0.isEmpty (i :: rest) cache0).cache).1 := rfl

theorem check_updates_cons_all_current {DT : Type} (lib : PyDatetimeLib DT) (cfg : EnvConfig)
    (net : PushRequest → Bool) (lookup : String → String → LookupOutcome) (now : String)
    (i : String) (rest : List String) (cache0 : List (String × CacheEntry)) :
    (check_updates lib cfg net lookup now (i :: rest) cache0).all_current_apps =
      (loopRun lib lookup now cache0.isEmpty (i :: rest) cache0).all_current_apps := rfl

theorem check_updates_cons_updated {DT : Type} (lib : PyDatetimeLib DT) (cfg : EnvConfig)
    (net : PushRequest → Bool) (lookup : String → String → LookupOutcome) (now : String)
    (i : String) (rest : List String) (cache0 : List (String × CacheEntry)) :
    (check_updates lib cfg net lookup now (i :: rest) cache0).updated_apps =
      (loopRun lib lookup now cache0.isEmpty (i :: rest) cache0).updated_apps := rfl

/-- Claim C10: format_datetime is total (a total Lean function over the
datetime capability) and, for every input string, returns 未知 on the empty
string, the +8 hour shifted strftime rendering when fromisoformat parses the
input with every Z rewritten to +00:00 (so a trailing Z is accepted), and the
first 16 characters of the original input when parsing fails. -/
theorem c10_theorem : ∀ (DT : Type) (lib : PyDatetimeLib DT) (s : String),
    (s = "" → format_datetime lib s = "未知") ∧
    (∀ dt, s ≠ "" → lib.fromisoformat (replaceChar s 'Z' "+00:00") = some dt →
      format_datetime lib s = lib.strftimeYmdHM (lib.addHours8 dt)) ∧
    (s ≠ "" → lib.fromisoformat (replaceChar s 'Z' "+00:00") = none →
      format_datetime lib s = s.take 16) := by
  intro DT lib s
  refine ⟨?_, ?_, ?_⟩
  · intro h
    simp [format_datetime, h]
  · intro dt hs h
    simp [format_datetime, hs, h]
  · intro hs h
    simp [format_datetime, hs, h]

/-- Claim C10 witness: the three branches evaluated at concrete inputs under a
concrete datetime capability. -/
theorem c10_witness :
    format_datetime lib10 "" = "未知" ∧
    format_datetime lib10 "2024-01-02T03:04:05Z" = "2024-01-03 03:04" ∧
    format_datetime lib10 "plainly not a date" = "plainly not a da" := by
  refine ⟨(c10_theorem Unit lib10 "").1 rfl, ?_, ?_⟩
  · have h := (c10_theorem Unit lib10 "2024-01-02T03:04:05Z").2.1 () (by decide) (by decide)
    exact h.trans (by decide)
  · have h := (c10_theorem Unit lib10 "plainly not a date").2.2 (by decide) (by decide)
    exact h.trans (by decide)

/-- Claim C2: evaluation of cache load over the backing-store states. A
missing file and an unparseable file both yield the empty mapping, but a file
that parses to a non-mapping top-level value makes load_version_cache return
Python None (the isinstance block is skipped and its reset-to-empty lines sit
after the return statement, unreachable), not the empty mapping the claim and
the spec require. -/
theorem c2_code_bug_eval :
    load_version_cache CacheFileState.missing = some [] ∧
    load_version_cache CacheFileState.unreadable = some [] ∧
    load_version_cache (CacheFileState.parsed (PyJson.arr [])) = none := by
  exact ⟨rfl, rfl, rfl⟩

/-- Claim C3: over the region list the resolver iterates, the first region
whose outcome is accepted (status 200, positive resultCount, a first result)
returns that record with the region attached, after issuing lookups exactly
to the preceding regions and itself — none after it; a transport error is a
miss (regionHit err is none) and iteration continues past it; if every
iterated region misses, the resolver returns none having tried them all. -/
theorem c3_theorem : ∀ (lookup : String → String → LookupOutcome) (app_id : String),
    ((∀ r ∈ REGIONS.take 6, regionHit (lookup app_id r) = none) →
      get_app_info_with_region lookup app_id = (none, REGIONS.take 6)) ∧
    (∀ (pre : List String) (r0 : String) (post : List String) (a : ITunesRecord),
      REGIONS.take 6 = pre ++ r0 :: post →
      (∀ r ∈ pre, regionHit (lookup app_id r) = none) →
      regionHit (lookup app_id r0) = some a →
      get_app_info_with_region lookup app_id =
        (some { raw := a, detected_region := r0 }, pre ++ [r0])) ∧
    regionHit LookupOutcome.err = none := by
  intro lookup app_id
  refine ⟨?_, ?_, rfl⟩
  · intro h
    exact lookupRegions_all_miss lookup app_id (REGIONS.take 6) h
  · intro pre r0 post a hdec hmiss hhit
    unfold get_app_info_with_region
    rw [hdec]
    exact lookupRegions_first_hit lookup app_id r0 a pre post hmiss hhit

/-- Claim C3 witness: an oracle erring on cn, missing on us and hitting on hk
returns the hk record having queried exactly cn, us, hk; an oracle erring
everywhere exhausts the iterated list and returns none. -/
theorem c3_witness :
    get_app_info_with_region lookupHK "A" =
      (some { raw := recA, detected_region := "hk" }, ["cn", "us", "hk"]) ∧
    get_app_info_with_region (fun _ _ => LookupOutcome.err) "A" = (none, REGIONS.take 6) := by
  constructor
  · exact (c3_theorem lookupHK "A").2.1 ["cn", "us"] "hk" ["tw", "jp", "kr"] recA (by decide)
      (by decide) (by decide)
  · exact (c3_theorem (fun _ _ => LookupOutcome.err) "A").1 (by decide)

/-- Claim C9: the built-in region list has 20 entries; for every oracle and
identifier the queried regions are a prefix of the fixed 6-entry truncation
REGIONS.take 6 (the resolver takes no configuration input that could extend
it); and whenever all of those 6 regions miss, the resolver returns none even
if a later region of the full list would hit. -/
theorem c9_theorem :
    REGIONS.length = 20 ∧
    (∀ (lookup : String → String → LookupOutcome) (app_id : String),
      ∃ k, k ≤ 6 ∧ (get_app_info_with_region lookup app_id).2 = (REGIONS.take 6).take k) ∧
    (∀ (lookup : String → String → LookupOutcome) (app_id : String),
      (∀ r ∈ REGIONS.take 6, regionHit (lookup app_id r) = none) →
      (get_app_info_with_region lookup app_id).1 = none) := by
  refine ⟨rfl, ?_, ?_⟩
  · intro lookup app_id
    obtain ⟨k, hk, hq⟩ := lookupRegions_queried lookup app_id (REGIONS.take 6)
    exact ⟨k, hk, hq⟩
  · intro lookup app_id h
    have h2 := lookupRegions_all_miss lookup app_id (REGIONS.take 6) h
    unfold get_app_info_with_region
    rw [h2]

/-- Claim C9 witness: an oracle that hits only in gb — the region at index 6
of the built-in list, just past the searched prefix — resolves to none. -/
theorem c9_witness :
    (get_app_info_with_region lookupGB "X").1 = none ∧
    regionHit (lookupGB "X" "gb") = some recA ∧
    REGIONS[6]? = some "gb" := by
  refine ⟨c9_theorem.2.2 lookupGB "X" (by decide), by decide, by decide⟩

/-- Claim C5: when the selected backend is bark with an empty device key, or
telegram with an empty bot token or chat id, or an unrecognized name, dispatch
returns false having issued no request; and the orchestrator's cache saves do
not depend on the notification configuration or transport at all, so a
pending change still reaches the save step. -/
theorem c5_theorem :
    (∀ (cfg : EnvConfig) (net : PushRequest → Bool) (title content url icon : String),
      ((get_push_method cfg = "bark" ∧ get_bark_key cfg = "") ∨
        (get_push_method cfg = "telegram" ∧
          (get_telegram_bot_token cfg = "" ∨ get_telegram_chat_id cfg = "")) ∨
        (get_push_method cfg ≠ "bark" ∧ get_push_method cfg ≠ "telegram")) →
      send_notification cfg net title content url icon = (false, [])) ∧
    (∀ (DT : Type) (lib : PyDatetimeLib DT) (cfg1 cfg2 : EnvConfig)
      (net1 net2 : PushRequest → Bool) (lookup : String → String → LookupOutcome)
      (now : String) (app_ids : List String) (cache0 : List (String × CacheEntry)),
      (check_updates lib cfg1 net1 lookup now app_ids cache0).saves =
        (check_updates lib cfg2 net2 lookup now app_ids cache0).saves) ∧
    (∀ (DT : Type) (lib : PyDatetimeLib DT) (cfg : EnvConfig) (net : PushRequest → Bool)
      (lookup : String → String → LookupOutcome) (now : String) (app_ids : List String)
      (cache0 : List (String × CacheEntry)),
      (check_updates lib cfg net lookup now app_ids cache0).updated_apps ≠ [] →
      (check_updates lib cfg net lookup now app_ids cache0).saves ≠ []) := by
  refine ⟨?_, ?_, ?_⟩
  · intro cfg net title content url icon h
    rcases h with ⟨hm, hk⟩ | ⟨hm, hc | hc⟩ | ⟨hb, ht⟩
    · simp [send_notification, hm, hk]
    · simp [send_notification, hm, hc]
    · simp [send_notification, hm, hc]
    · simp [send_notification, hb, ht]
  · intro DT lib cfg1 cfg2 net1 net2 lookup now app_ids cache0
    cases app_ids with
    | nil => rfl
    | cons i rest =>
      rw [check_updates_cons_saves, check_updates_cons_saves]
      exact notify_and_save_saves_indep cfg1 cfg2 net1 net2 _ _ _ _
  · intro DT lib cfg net lookup now app_ids cache0 hupd
    cases app_ids with
    | nil => exact absurd rfl hupd
    | cons i rest =>
      rw [check_updates_cons_updated] at hupd
      rw [check_updates_cons_saves]
      rcases notify_and_save_shape cfg net cache0.isEmpty
          (loopRun lib lookup now cache0.isEmpty (i :: rest) cache0).all_current_apps
          (loopRun lib lookup now cache0.isEmpty (i :: rest) cache0).updated_apps
          (loopRun lib lookup now cache0.isEmpty (i :: rest) cache0).cache
        with ⟨heq, hu⟩ | ⟨call, heq⟩
      · exact absurd hu hupd
      · rw [heq]
        simp

/-- Claim C5 witness: concrete configurations with a missing bark key, a
missing telegram chat id, and an unknown backend name all skip dispatch with
no request, and two runs differing only in notification config and transport
produce the same saves. -/
theorem c5_witness :
    send_notification cfgNoKey netTrue "t" "c" "" "" = (false, []) ∧
    send_notification
      { PUSH_METHOD := some "telegram", BARK_KEY := none,
        TELEGRAM_BOT_TOKEN := some "tok", TELEGRAM_CHAT_ID := none }
      netTrue "t" "c" "" "" = (false, []) ∧
    send_notification
      { PUSH_METHOD := some "pigeon", BARK_KEY := some "k",
        TELEGRAM_BOT_TOKEN := some "tok", TELEGRAM_CHAT_ID := some "chat" }
      netTrue "t" "c" "" "" = (false, []) ∧
    (check_updates libNone cfgNoKey netTrue lookupA "t1" ["A"] [("B", entryB)]).saves =
      (check_updates libNone cfgTelegram (fun _ => false) lookupA "t1" ["A"]
        [("B", entryB)]).saves := by
  refine ⟨?_, ?_, ?_, ?_⟩
  · exact c5_theorem.1 cfgNoKey netTrue "t" "c" "" "" (Or.inl (by decide))
  · exact c5_theorem.1 _ netTrue "t" "c" "" "" (Or.inr (Or.inl (by decide)))
  · exact c5_theorem.1 _ netTrue "t" "c" "" "" (Or.inr (Or.inr (by decide)))
  · exact c5_theorem.2.1 Unit libNone cfgNoKey cfgTelegram netTrue (fun _ => false) lookupA
      "t1" ["A"] [("B", entryB)]

/-- Claim C7 counterexample: with the telegram backend configured, dispatching
a payload whose link is nonempty sends exactly one message whose text is the
bold title, a blank line and the body — and that text does not contain the
link anywhere, so the link is not appended inline as the claim states. -/
theorem c7_counterexample :
    (send_notification cfgTelegram netTrue "新版本" "更新内容" "https://apps.example.com/a" "").2 =
      [PushRequest.telegram "tok" "chat" "*新版本*\n\n更新内容"] ∧
    containsSub "*新版本*\n\n更新内容" "https://apps.example.com/a" = false := by
  exact ⟨by decide, by decide⟩

/-- Claim C7 as amended: for every title, body and link, telegram dispatch
with complete credentials sends exactly one message whose rendered text is
the bold title, a blank line, then the body; the link (and icon) arguments
are dropped — they appear in no field of the issued request, because
send_notification does not pass them to the telegram sender. -/
theorem c7_theorem :
    ∀ (cfg : EnvConfig) (net : PushRequest → Bool) (title content url icon : String),
      get_push_method cfg = "telegram" →
      get_telegram_bot_token cfg ≠ "" →
      get_telegram_chat_id cfg ≠ "" →
      send_notification cfg net title content url icon =
        (net (PushRequest.telegram (get_telegram_bot_token cfg) (get_telegram_chat_id cfg)
            ("*" ++ title ++ "*\n\n" ++ content)),
          [PushRequest.telegram (get_telegram_bot_token cfg) (get_telegram_chat_id cfg)
            ("*" ++ title ++ "*\n\n" ++ content)]) := by
  intro cfg net title content url icon hm hbot hchat
  simp [send_notification, hm, send_telegram_notification, hbot, hchat]

/-- Claim C7 witness: the amended statement evaluated at a concrete telegram
configuration and payload. -/
theorem c7_witness :
    send_notification cfgTelegram netTrue "标题" "正文" "https://example.com/x" "icon" =
      (netTrue (PushRequest.telegram "tok" "chat" "*标题*\n\n正文"),
        [PushRequest.telegram "tok" "chat" "*标题*\n\n正文"]) := by
  have h := c7_theorem cfgTelegram netTrue "标题" "正文" "https://example.com/x" "icon"
    (by decide) (by decide) (by decide)
  exact h.trans (by decide)

/-- Claim C6 counterexample: two Updated results with 160-character notes.
The multi-result body is the blank-line join of the same build_app_detail
renderings used for a single result — no numbered list — and the per-entry
excerpt equals the single-result excerpt (147 characters plus the ellipsis,
the 150 limit), not a shorter one. -/
theorem c6_counterexample :
    (notify_and_save cfgBark netTrue false [] [appU1, appU2] []).1.map (fun x => x.content) =
      ["发现以下应用有更新：\n\n" ++ build_app_detail appU1 true ++ "\n\n" ++
        build_app_detail appU2 true] ∧
    (notify_and_save cfgBark netTrue false [] [appU1] []).1.map (fun x => x.content) =
      [build_app_detail appU1 true] ∧
    build_app_detail appU1 true =
      "📱 AppOne（1.0→2.0 📱\n地区: 美国 | 更新时间: 2024-01-03 03:04\n━━━━━━━━━━━━━━━\n" ++
        (longNotes.take 147 ++ "...") := by
  refine ⟨by decide, by decide, by decide⟩

/-- Claim C6 as amended: a single Updated result is rendered by
build_app_detail with the 150-character notes limit — notes longer than 150
characters are cut to 147 characters plus an ellipsis, notes at or under the
limit are shown verbatim; multiple Updated results are rendered as the
blank-line join of per-entry build_app_detail renderings using the same
function and the same 150-character limit (not a shorter one), with no
numbering. -/
theorem c6_theorem :
    (∀ app : AppData, app.notes.length > 150 →
      build_app_detail app true =
        "📱 " ++ app.name ++
          (if app.old_version ≠ "" then "（" ++ app.old_version ++ "→" else "") ++
          app.version ++ " 📱\n地区: " ++ app.region ++ " | 更新时间: " ++ app.release ++
          "\n━━━━━━━━━━━━━━━\n" ++ (app.notes.take 147 ++ "...")) ∧
    (∀ app : AppData, app.notes.length ≤ 150 →
      build_app_detail app true =
        "📱 " ++ app.name ++
          (if app.old_version ≠ "" then "（" ++ app.old_version ++ "→" else "") ++
          app.version ++ " 📱\n地区: " ++ app.region ++ " | 更新时间: " ++ app.release ++
          "\n━━━━━━━━━━━━━━━\n" ++ app.notes) ∧
    (∀ (cfg : EnvConfig) (net : PushRequest → Bool) (a : AppData)
        (c : List (String × CacheEntry)),
      (notify_and_save cfg net false [] [a] c).1.map (fun x => x.content) =
        [build_app_detail a true]) ∧
    (∀ (cfg : EnvConfig) (net : PushRequest → Bool) (a b : AppData) (rest : List AppData)
        (c : List (String × CacheEntry)),
      (notify_and_save cfg net false [] (a :: b :: rest) c).1.map (fun x => x.content) =
        ["发现以下应用有更新：\n\n" ++
          String.intercalate "\n\n" ((a :: b :: rest).map (fun x => build_app_detail x true))]) := by
  refine ⟨?_, ?_, ?_, ?_⟩
  · intro app h
    simp [build_app_detail, h]
  · intro app h
    have h2 : ¬ app.notes.length > 150 := by omega
    simp [build_app_detail, h2]
  · intro cfg net a c
    rfl
  · intro cfg net a b rest c
    rfl

/-- Claim C6 witness: the amended statement evaluated at concrete single and
multiple Updated results with over-limit and under-limit notes. -/
theorem c6_witness :
    build_app_detail appU1 true =
      "📱 AppOne（1.0→2.0 📱\n地区: 美国 | 更新时间: 2024-01-03 03:04\n━━━━━━━━━━━━━━━\n" ++
        (longNotes.take 147 ++ "...") ∧
    build_app_detail { appU2 with notes := "小修复" } true =
      "📱 AppTwo（2.5→3.0 📱\n地区: 日本 | 更新时间: 2024-01-03 04:04\n━━━━━━━━━━━━━━━\n小修复" ∧
    (notify_and_save cfgNoKey netTrue false [] [appU1, appU2] []).1.map (fun x => x.content) =
      ["发现以下应用有更新：\n\n" ++
        String.intercalate "\n\n" ([appU1, appU2].map (fun x => build_app_detail x true))] := by
  refine ⟨?_, ?_, ?_⟩
  · exact (c6_theorem.1 appU1 (by decide)).trans (by decide)
  · exact (c6_theorem.2.1 { appU2 with notes := "小修复" } (by decide)).trans (by decide)
  · exact c6_theorem.2.2.2 cfgNoKey netTrue appU1 appU2 [] []

/-- Claim C1 counterexample: with a non-empty cache holding only an entry for
B, resolving identifier A (absent from the cache) with fresh version 2.0 is
classified by the claim's rule as Unseen, but the run places it in
updated_apps with the empty string as old version — the code classifies it as
Updated, because the absent entry reads as the empty string and only the
whole-cache-empty flag produces Unseen. -/
theorem c1_counterexample :
    classify_claim ((getEntry [("B", entryB)] "A").map (fun e => e.version)) "2.0" =
      Classification.unseen ∧
    (check_updates libNone cfgNoKey netTrue lookupA "2024-06-01T00:00:00" ["A"]
        [("B", entryB)]).all_current_apps = [] ∧
    (check_updates libNone cfgNoKey netTrue lookupA "2024-06-01T00:00:00" ["A"]
        [("B", entryB)]).updated_apps.map (fun a => (a.id, a.old_version, a.version)) =
      [("A", "", "2.0")] ∧
    classify_code false "" "2.0" = Classification.updated "" ∧
    Classification.updated "" ≠ Classification.unseen := by
  refine ⟨rfl, by decide, by decide, by decide, by decide⟩

/-- Claim C1 as amended: classification is a pure function of the run's
cold-start flag (cache empty at load), the fresh version string and the
cached version string defaulted to the empty string when the entry is absent:
on a cold-start run every resolved identifier is Unseen; otherwise an equal
defaulted cached version gives Unchanged and anything else gives
Updated(fresh, defaulted old) — so an identifier absent from a non-empty
cache classifies Updated with empty old version. The loop realizes exactly
this function: Unseen appends to all_current_apps, Updated appends to
updated_apps, Unchanged mutates nothing. -/
theorem c1_theorem : ∀ (DT : Type) (lib : PyDatetimeLib DT)
    (lookup : String → String → LookupOutcome) (now : String) (first : Bool) (st : LoopState)
    (app_id : String) (info : AppInfo),
    (get_app_info_with_region lookup app_id).1 = some info →
    (classify_code first (getCachedVersion st.cache app_id) (info.raw.version.getD "0.0") =
      (if first = true then Classification.unseen
       else if getCachedVersion st.cache app_id = info.raw.version.getD "0.0" then
         Classification.unchanged
       else Classification.updated (getCachedVersion st.cache app_id))) ∧
    (classify_code first (getCachedVersion st.cache app_id) (info.raw.version.getD "0.0") =
        Classification.unseen →
      processApp lib lookup now first st app_id =
        { cache := setEntry st.cache app_id (cacheEntryOf now info),
          all_current_apps := st.all_current_apps ++
            [appDataOf lib (getCachedVersion st.cache app_id) app_id info],
          updated_apps := st.updated_apps,
          writes := st.writes ++ [(app_id, cacheEntryOf now info)] }) ∧
    (classify_code first (getCachedVersion st.cache app_id) (info.raw.version.getD "0.0") =
        Classification.unchanged →
      processApp lib lookup now first st app_id = st) ∧
    (∀ o, classify_code first (getCachedVersion st.cache app_id) (info.raw.version.getD "0.0") =
        Classification.updated o →
      o = getCachedVersion st.cache app_id ∧
      processApp lib lookup now first st app_id =
        { cache := setEntry st.cache app_id (cacheEntryOf now info),
          all_current_apps := st.all_current_apps,
          updated_apps := st.updated_apps ++
            [appDataOf lib (getCachedVersion st.cache app_id) app_id info],
          writes := st.writes ++ [(app_id, cacheEntryOf now info)] }) := by
  intro DT lib lookup now first st app_id info h
  cases first with
  | true =>
    refine ⟨by simp [classify_code], ?_, ?_, ?_⟩
    · intro _
      exact processApp_first lib lookup now st app_id info h
    · intro hc
      simp [classify_code] at hc
    · intro o hc
      simp [classify_code] at hc
  | false =>
    by_cases he : getCachedVersion st.cache app_id = info.raw.version.getD "0.0"
    · refine ⟨by simp [classify_code, he], ?_, ?_, ?_⟩
      · intro hc
        simp [classify_code, he] at hc
      · intro _
        exact processApp_unchanged lib lookup now st app_id info h he
      · intro o hc
        simp [classify_code, he] at hc
    · refine ⟨by simp [classify_code, he], ?_, ?_, ?_⟩
      · intro hc
        simp [classify_code, he] at hc
      · intro hc
        simp [classify_code, he] at hc
      · intro o hc
        have ho : o = getCachedVersion st.cache app_id := by
          simp [classify_code, he] at hc
          exact hc.symm
        exact ⟨ho, processApp_updated lib lookup now st app_id info h he⟩

/-- Claim C1 witness: the amended classification applied at the concrete
counterexample input — identifier A absent from the non-empty cache, fresh
version 2.0 — yields the Updated branch with empty old version. -/
theorem c1_witness :
    processApp libNone lookupA "2024-06-01T00:00:00" false (initLoopState [("B", entryB)]) "A" =
      { cache := setEntry [("B", entryB)] "A"
          (cacheEntryOf "2024-06-01T00:00:00" { raw := recA, detected_region := "cn" }),
        all_current_apps := [],
        updated_apps := [appDataOf libNone "" "A" { raw := recA, detected_region := "cn" }],
        writes := [("A", cacheEntryOf "2024-06-01T00:00:00"
          { raw := recA, detected_region := "cn" })] } := by
  have h := (c1_theorem Unit libNone lookupA "2024-06-01T00:00:00" false
      (initLoopState [("B", entryB)]) "A" { raw := recA, detected_region := "cn" }
      (by decide)).2.2.2 "" (by decide)
  exact h.2.trans (by decide)

/-- Claim C8: a resolved identifier classified Unseen or Updated immediately
overwrites the working mapping with a whole new CacheEntry for that
identifier (appended to the write trace), and its version field is the
record's version; a classification as Unchanged leaves the state untouched.
Consequently, over any pass, each identifier reads as the entry of the write
that most recently targeted it, or as its loaded entry when the pass never
wrote it. -/
theorem c8_theorem : ∀ (DT : Type) (lib : PyDatetimeLib DT)
    (lookup : String → String → LookupOutcome) (now : String) (first : Bool),
    (∀ (st : LoopState) (app_id : String) (info : AppInfo),
      (get_app_info_with_region lookup app_id).1 = some info →
      ((classify_code first (getCachedVersion st.cache app_id) (info.raw.version.getD "0.0") =
          Classification.unchanged → processApp lib lookup now first st app_id = st) ∧
        (classify_code first (getCachedVersion st.cache app_id) (info.raw.version.getD "0.0") ≠
            Classification.unchanged →
          (processApp lib lookup now first st app_id).cache =
              setEntry st.cache app_id (cacheEntryOf now info) ∧
            (processApp lib lookup now first st app_id).writes =
              st.writes ++ [(app_id, cacheEntryOf now info)] ∧
            (cacheEntryOf now info).version = info.raw.version.getD "0.0"))) ∧
    (∀ (ids : List String) (cache0 : List (String × CacheEntry)) (id : String),
      getEntry (loopRun lib lookup now first ids cache0).cache id =
        match lastWrite (loopRun lib lookup now first ids cache0).writes id with
        | some e => some e
        | none => getEntry cache0 id) := by
  intro DT lib lookup now first
  constructor
  · intro st app_id info h
    constructor
    · intro hc
      cases first with
      | true => simp [classify_code] at hc
      | false =>
        by_cases he : getCachedVersion st.cache app_id = info.raw.version.getD "0.0"
        · exact processApp_unchanged lib lookup now st app_id info h he
        · simp [classify_code, he] at hc
    · intro hc
      cases first with
      | true =>
        rw [processApp_first lib lookup now st app_id info h]
        exact ⟨rfl, rfl, rfl⟩
      | false =>
        by_cases he : getCachedVersion st.cache app_id = info.raw.version.getD "0.0"
        · exact absurd (by simp [classify_code, he]) hc
        · rw [processApp_updated lib lookup now st app_id info h he]
          exact ⟨rfl, rfl, rfl⟩
  · intro ids cache0 id
    exact cacheInv_foldl lib lookup now first cache0 ids (initLoopState cache0)
      (cacheInv_init cache0) id

/-- Claim C8 witness: an Unchanged classification at a concrete cached entry
mutates nothing, and after a concrete pass that writes identifier A its cache
entry is the entry of that write. -/
theorem c8_witness :
    processApp libNone lookupA "t1" false
        (initLoopState [("A", ⟨"2.0", "AppA", "cn", "", "t0"⟩)]) "A" =
      initLoopState [("A", ⟨"2.0", "AppA", "cn", "", "t0"⟩)] ∧
    getEntry (loopRun libNone lookupA "t1" false ["A"] []).cache "A" =
      some (cacheEntryOf "t1" { raw := recA, detected_region := "cn" }) := by
  constructor
  · exact ((c8_theorem Unit libNone lookupA "t1" false).1
      (initLoopState [("A", ⟨"2.0", "AppA", "cn", "", "t0"⟩)]) "A"
      { raw := recA, detected_region := "cn" } (by decide)).1 (by decide)
  · have h := (c8_theorem Unit libNone lookupA "t1" false).2 ["A"] [] "A"
    exact h.trans (by decide)

/-- Claim C4: the cache is saved exactly when a notification was attempted —
saves and notifications are empty together, at most one save happens, a run
whose accumulators are both empty (every resolved identifier Unchanged)
saves nothing, a cold-start run with at least one resolved identifier saves
exactly once, and an incremental run with a non-empty Updated set saves
exactly once. -/
theorem c4_theorem : ∀ (DT : Type) (lib : PyDatetimeLib DT) (cfg : EnvConfig)
    (net : PushRequest → Bool) (lookup : String → String → LookupOutcome) (now : String)
    (app_ids : List String) (cache0 : List (String × CacheEntry)),
    ((check_updates lib cfg net lookup now app_ids cache0).saves = [] ↔
      (check_updates lib cfg net lookup now app_ids cache0).notifications = []) ∧
    (check_updates lib cfg net lookup now app_ids cache0).saves.length ≤ 1 ∧
    ((check_updates lib cfg net lookup now app_ids cache0).all_current_apps = [] ∧
        (check_updates lib cfg net lookup now app_ids cache0).updated_apps = [] →
      (check_updates lib cfg net lookup now app_ids cache0).saves = []) ∧
    (cache0 = [] →
      (∃ id ∈ app_ids, ((get_app_info_with_region lookup id).1).isSome) →
      (check_updates lib cfg net lookup now app_ids cache0).saves.length = 1) ∧
    (cache0 ≠ [] →
      (check_updates lib cfg net lookup now app_ids cache0).updated_apps ≠ [] →
      (check_updates lib cfg net lookup now app_ids cache0).saves.length = 1) := by
  intro DT lib cfg net lookup now app_ids cache0
  cases app_ids with
  | nil =>
    refine ⟨by simp [check_updates], by simp [check_updates], ?_, ?_, ?_⟩
    · intro _
      rfl
    · intro _ hex
      simp at hex
    · intro _ hupd
      exact absurd rfl hupd
  | cons i rest =>
    have hshape := notify_and_save_shape cfg net cache0.isEmpty
      (loopRun lib lookup now cache0.isEmpty (i :: rest) cache0).all_current_apps
      (loopRun lib lookup now cache0.isEmpty (i :: rest) cache0).updated_apps
      (loopRun lib lookup now cache0.isEmpty (i :: rest) cache0).cache
    refine ⟨?_, ?_, ?_, ?_, ?_⟩
    · rw [check_updates_cons_saves, check_updates_cons_notifications]
      rcases hshape with ⟨heq, _⟩ | ⟨call, heq⟩ <;> rw [heq] <;> simp
    · rw [check_updates_cons_saves]
      rcases hshape with ⟨heq, _⟩ | ⟨call, heq⟩ <;> rw [heq] <;> simp
    · rintro ⟨hacc, hupd⟩
      rw [check_updates_cons_all_current] at hacc
      rw [check_updates_cons_updated] at hupd
      rw [check_updates_cons_saves, hacc, hupd]
      cases hb : cache0.isEmpty <;> rfl
    · intro hc0 hex
      subst hc0
      obtain ⟨id0, hid0, hsome⟩ := hex
      have hlen := foldl_first_all_current lib lookup now (i :: rest)
        (initLoopState ([] : List (String × CacheEntry)))
      have hpos : 0 < (i :: rest).countP
          (fun id => ((get_app_info_with_region lookup id).1).isSome) := by
        rw [List.countP_pos_iff]
        exact ⟨id0, hid0, hsome⟩
      rw [check_updates_cons_saves]
      simp only [List.isEmpty_nil]
      have hlen2 : 0 < (loopRun lib lookup now true (i :: rest)
          ([] : List (String × CacheEntry))).all_current_apps.length := by
        show 0 < ((i :: rest).foldl (processApp lib lookup now true)
          (initLoopState ([] : List (String × CacheEntry)))).all_current_apps.length
        rw [hlen]
        simpa [initLoopState] using hpos
      obtain ⟨x, xs, hacc⟩ : ∃ x xs, (loopRun lib lookup now true (i :: rest)
          ([] : List (String × CacheEntry))).all_current_apps = x :: xs := by
        cases hcc : (loopRun lib lookup now true (i :: rest)
            ([] : List (String × CacheEntry))).all_current_apps with
        | nil =>
          rw [hcc] at hlen2
          simp at hlen2
        | cons x xs => exact ⟨x, xs, rfl⟩
      rw [hacc]
      cases hu2 : (loopRun lib lookup now true (i :: rest)
          ([] : List (String × CacheEntry))).updated_apps with
      | nil => rfl
      | cons y ys =>
        cases ys with
        | nil => rfl
        | cons z zs => rfl
    · intro hc0 hupd
      rw [check_updates_cons_updated] at hupd
      rw [check_updates_cons_saves]
      rcases hshape with ⟨heq, hu⟩ | ⟨call, heq⟩
      · exact absurd hu hupd
      · rw [heq]
        rfl

/-- Claim C4 witness: a cold-start run with one resolved identifier and an
incremental run with one Updated identifier each perform exactly one save. -/
theorem c4_witness :
    (check_updates libNone cfgNoKey netTrue lookupA "t1" ["A"] []).saves.length = 1 ∧
    (check_updates libNone cfgNoKey netTrue lookupA "t1" ["A"] [("B", entryB)]).saves.length =
      1 := by
  constructor
  · exact (c4_theorem Unit libNone cfgNoKey netTrue lookupA "t1" ["A"] []).2.2.2.1 rfl
      ⟨"A", by decide, by decide⟩
  · exact (c4_theorem Unit libNone cfgNoKey netTrue lookupA "t1" ["A"]
      [("B", entryB)]).2.2.2.2 (by decide) (by decide)
